import Mathlib

/-
Verification of the Effort_controller repository: a shallow embedding of
the torque-computation pipeline of the HOCBF Cartesian impedance
controller, the simplified Cartesian impedance controller, and the
EffortControllerBase write path, together with theorems settling the
frozen specification claims.

Scalars are modelled as rationals wherever the C++ code performs exact
arithmetic on doubles; the IEEE-754 special values that the saturation
logic of EffortControllerBase::writeJointEffortCmds depends on (NaN and
the infinities) are modelled explicitly by the FVal type.
-/

namespace EffortCtrl

/-! ## Basic vector and matrix types

The C++ code uses Eigen dynamic matrices (ctrl::MatrixND / VectorND) and
fixed 3- and 6-vectors (KDL::Vector, ctrl::Vector6D). -/

abbrev Vec3 := Fin 3 → ℚ

abbrev Vec6 := Fin 6 → ℚ

abbrev Mat3 := Matrix (Fin 3) (Fin 3) ℚ

/-- Squared Euclidean norm of a 3-vector (KDL Norm() squared). -/
def normSq3 (v : Vec3) : ℚ := v 0 ^ 2 + v 1 ^ 2 + v 2 ^ 2

/-- std::clamp(v, lo, hi): lo if v < lo, hi if hi < v, else v. -/
def stdClamp (v lo hi : ℚ) : ℚ := if v < lo then lo else if hi < v then hi else v

/-- KDL cross product of two 3-vectors (operator* on KDL::Vector). -/
def cross (a b : Vec3) : Vec3 :=
  ![a 1 * b 2 - a 2 * b 1, a 2 * b 0 - a 0 * b 2, a 0 * b 1 - a 1 * b 0]

/-- Column j of a rotation matrix: KDL Rotation::UnitX/UnitY/UnitZ are
the columns 0, 1, 2. -/
def col (M : Mat3) (j : Fin 3) : Vec3 := fun i => M i j

/-- Assemble a 6-vector from a linear block (entries 0-2) and an angular
block (entries 3-5). -/
def join3 (a b : Vec3) : Vec6 := ![a 0, a 1, a 2, b 0, b 1, b 2]

/-- Linear block (entries 0-2) of a 6-vector. -/
def transBlock (w : Vec6) : Vec3 := ![w 0, w 1, w 2]

/-- Angular block (entries 3-5) of a 6-vector. -/
def rotBlock (w : Vec6) : Vec3 := ![w 3, w 4, w 5]

/-! ## IEEE-754 value model for the effort write path

EffortControllerBase::writeJointEffortCmds saturates each joint effort
against m_joint_effort_limits(i) with the comparisons
`m_efforts[i] >= limit` and `m_efforts[i] <= -limit`.  Continuous joints
get a NaN limit in on_configure, so the IEEE comparison semantics
(every comparison with NaN is false) are load-bearing and are modelled
explicitly. -/

/-- A double: a finite (exact) value, NaN, +infinity or -infinity. -/
inductive FVal where
  | fin : ℚ → FVal
  | nan : FVal
  | pinf : FVal
  | ninf : FVal
deriving DecidableEq, Repr

/-- IEEE-754 `a >= b`: false whenever either operand is NaN. -/
def fge : FVal → FVal → Bool
  | .nan, _ => false
  | _, .nan => false
  | .pinf, _ => true
  | _, .pinf => false
  | _, .ninf => true
  | .ninf, _ => false
  | .fin a, .fin b => decide (b ≤ a)

/-- IEEE-754 `a <= b`: false whenever either operand is NaN. -/
def fle (a b : FVal) : Bool := fge b a

/-- IEEE-754 negation. -/
def fneg : FVal → FVal
  | .fin a => .fin (-a)
  | .nan => .nan
  | .pinf => .ninf
  | .ninf => .pinf

/-- The per-joint saturation of EffortControllerBase::writeJointEffortCmds:
if (e >= limit) e = limit; else if (e <= -limit) e = -limit; the
(possibly modified) e is then written to the joint's effort command
interface. -/
def saturateEffort (e limit : FVal) : FVal :=
  if fge e limit then limit
  else if fle e (fneg limit) then fneg limit
  else e

/-- EffortControllerBase::writeJointEffortCmds: for each joint i the
effort m_efforts[i] is saturated against m_joint_effort_limits(i) and
the result is written to that joint's effort command interface.  The
returned list holds the values written, joint by joint. -/
def writeJointEffortCmds (efforts limits : List FVal) : List FVal :=
  List.zipWith saturateEffort efforts limits

/-! ## Matrix inverse

Eigen's `.inverse()` on an invertible square rational matrix: the
cofactor form det(A)⁻¹ · adjugate(A), which coincides with Mathlib's
nonsingular inverse and is computable. -/

/-- Matrix inverse in cofactor form (Eigen `.inverse()`). -/
def matInv {k : ℕ} (A : Matrix (Fin k) (Fin k) ℚ) : Matrix (Fin k) (Fin k) ℚ :=
  (A.det)⁻¹ • A.adjugate

/-- The matrix the HOCBF controller passes to the safety filter as the
operational-space inertia: `(jac * inertia_matrix.data * jac.transpose()).inverse()`
at hocbf_cartesian_impedance_controller.cpp lines 332-333, where
inertia_matrix is the joint-space mass matrix from JntToMass. -/
def LambdaCode {m n : ℕ} (jac : Matrix (Fin m) (Fin n) ℚ)
    (inertia : Matrix (Fin n) (Fin n) ℚ) : Matrix (Fin m) (Fin m) ℚ :=
  matInv (jac * inertia * jac.transpose)

/-- Modelled from the spec: the operational-space inertia the SafetyFilter
contract requires as its second argument, `Λ = (J·M⁻¹·Jᵀ)⁻¹`, built from
the inverse of the manipulator mass matrix M (spec section 4.6). -/
def LambdaSpecOSIM {m n : ℕ} (jac : Matrix (Fin m) (Fin n) ℚ)
    (inertia : Matrix (Fin n) (Fin n) ℚ) : Matrix (Fin m) (Fin m) ℚ :=
  matInv (jac * matInv inertia * jac.transpose)

/-! ## Motion error computations

Three variants exist in the repository.  KDL's GetRotAngle returns a
nonnegative angle and a unit rotation axis, and KDL's Vector::Normalize
returns the (nonnegative) norm and replaces the vector by a unit
direction (or by (1,0,0) when the norm is negligible, in which case the
returned norm is below the epsilon and in particular below 1); those
postconditions appear as hypotheses of the theorems below because the
trigonometric reduction itself is outside the rational fragment. -/

/-- The error frame built by HOCBFCartesianImpedanceController::computeMotionError
(lines 190-191): rotation part target.M * current.M.Inverse() (KDL
Rotation::Inverse is the transpose) and translation part
target.p - current.p. -/
def hocbfErrorFrame (tM cM : Mat3) (tp cp : Vec3) : Mat3 × Vec3 :=
  (tM * cM.transpose, tp - cp)

/-- The tail of HOCBFCartesianImpedanceController::computeMotionError after
GetRotAngle and Normalize: clamp angle and distance to [-1, 1] with
std::clamp, rescale the unit axis and unit direction by the clamped
magnitudes, and return (translation block, rotation block). -/
def hocbfMotionErrorFinal (dir : Vec3) (distance : ℚ) (axis : Vec3) (angle : ℚ) :
    Vec3 × Vec3 :=
  let a := stdClamp angle (-1) 1
  let d := stdClamp distance (-1) 1
  (d • dir, a • axis)

/-- CartesianImpedanceController::computeMotionError (simplified variant,
lines 614-661): translation block current.p - target.p, rotation block
0.5 * (target.UnitX() x current.UnitX() + target.UnitY() x current.UnitY()
+ target.UnitZ() x current.UnitZ()) where x is the KDL cross product. -/
def ciMotionError (tM cM : Mat3) (tp cp : Vec3) : Vec6 :=
  join3 (cp - tp)
    ((1 / 2 : ℚ) •
      (cross (col tM 0) (col cM 0) + cross (col tM 1) (col cM 1) +
        cross (col tM 2) (col cM 2)))

/-- The error frame of the historical ROS1
CartesianImpedanceController::computeMotionError (third variant): same
construction as the HOCBF variant, target.M * current.M.Inverse() and
target.p - current.p (it then applies the unclamped Rodrigues reduction). -/
def oldCiErrorFrame (tM cM : Mat3) (tp cp : Vec3) : Mat3 × Vec3 :=
  (tM * cM.transpose, tp - cp)

/-! ## The HOCBF torque computation

HOCBFCartesianImpedanceController::computeTorque.  The safety filter
planes_hocbf::hocbfPositionFilter is not under src/; per the spec's
SafetyFilter contract it consumes (tau_nominal, Lambda, jac,
tau_coriolis, ee velocity, dt) and yields the filtered torque (its
diagnostic vector is irrelevant to the claims), so it enters the
embedding as an opaque function parameter.  The current frame and the
barrier list only flow into the filter, hence are absorbed into that
parameter. -/

/-- Modelled from the spec: the type of the pluggable safety filter stage,
mapping (nominal torque, operational-space inertia argument, Jacobian,
Coriolis argument, end-effector velocity, dt) to the filtered torque. -/
abbrev FilterFun (m n : ℕ) :=
  (Fin n → ℚ) → Matrix (Fin m) (Fin m) ℚ → Matrix (Fin m) (Fin n) ℚ →
    (Fin n → ℚ) → (Fin m → ℚ) → ℚ → (Fin n → ℚ)

/-- The task torque tau_task = jacᵀ * (K * motion_error - D * (jac * q_dot))
of computeTorque (lines 307-308), with K and D the stiffness and damping
already re-expressed in the base link. -/
def tauTask {m n : ℕ} (jac : Matrix (Fin m) (Fin n) ℚ)
    (K D : Matrix (Fin m) (Fin m) ℚ) (motion_error : Fin m → ℚ)
    (q_dot : Fin n → ℚ) : Fin n → ℚ :=
  jac.transpose.mulVec (K.mulVec motion_error - D.mulVec (jac.mulVec q_dot))

/-- Result of one computeTorque call: the returned torque together with
the operational-space inertia and Coriolis arguments that were handed to
the safety filter. -/
structure TorqueOut (m n : ℕ) where
  torque : Fin n → ℚ
  lambdaArg : Matrix (Fin m) (Fin m) ℚ
  coriolisArg : Fin n → ℚ

/-- HOCBFCartesianImpedanceController::computeTorque (lines 239-362),
with the forward kinematics, Jacobian, motion error reduction, gravity
and Coriolis solver outputs supplied as inputs: tau_task is formed from
the base-link stiffness and damping; tau_coriolis is a freshly
zero-initialized KDL::JntArray; Lambda is (jac * M * jacᵀ)⁻¹; the filter
is called on (tau_task, Lambda, jac, tau_coriolis, jac * q_dot, dt);
afterwards gravity and Coriolis compensation are each added when their
flag is set, and the sum is returned. -/
def hocbfComputeTorqueCore {m n : ℕ} (filter : FilterFun m n)
    (jac : Matrix (Fin m) (Fin n) ℚ) (inertia : Matrix (Fin n) (Fin n) ℚ)
    (K D : Matrix (Fin m) (Fin m) ℚ) (motion_error : Fin m → ℚ)
    (q_dot gravity coriolis_dyn : Fin n → ℚ)
    (compensate_gravity compensate_coriolis : Bool) (dt : ℚ) : TorqueOut m n :=
  let tau_task := tauTask jac K D motion_error q_dot
  let tau_nominal := tau_task
  let tau_coriolis : Fin n → ℚ := 0
  let lam := LambdaCode jac inertia
  let dot_x := jac.mulVec q_dot
  let tau_filtered := filter tau_nominal lam jac tau_coriolis dot_x dt
  let t1 := if compensate_gravity then tau_filtered + gravity else tau_filtered
  let t2 := if compensate_coriolis then t1 + coriolis_dyn else t1
  ⟨t2, lam, tau_coriolis⟩

/-! ## Target pose and wrench callbacks -/

/-- A geometry_msgs PoseStamped as the callbacks read it. -/
structure PoseMsg where
  frame_id : String
  px : ℚ
  py : ℚ
  pz : ℚ
  qx : ℚ
  qy : ℚ
  qz : ℚ
  qw : ℚ

/-- A geometry_msgs WrenchStamped as the callbacks read it. -/
structure WrenchMsg where
  frame_id : String
  fx : ℚ
  fy : ℚ
  fz : ℚ
  tx : ℚ
  ty : ℚ
  tz : ℚ

/-- KDL Rotation::Quaternion(x, y, z, w): the rotation matrix assembled
from the quaternion components. -/
def quatToRot (x y z w : ℚ) : Mat3 :=
  Matrix.of
    ![![w * w + x * x - y * y - z * z, 2 * x * y - 2 * w * z, 2 * x * z + 2 * w * y],
      ![2 * x * y + 2 * w * z, w * w - x * x + y * y - z * z, 2 * y * z - 2 * w * x],
      ![2 * x * z - 2 * w * y, 2 * y * z + 2 * w * x, w * w - x * x - y * y + z * z]]

/-- The frame a pose message encodes: rotation from its quaternion and
position from its three position scalars. -/
def msgFrame (msg : PoseMsg) : Mat3 × Vec3 :=
  (quatToRot msg.qx msg.qy msg.qz msg.qw, ![msg.px, msg.py, msg.pz])

/-- The six wrench scalars of a wrench message as a 6-vector
(force block then torque block). -/
def rawWrench (msg : WrenchMsg) : Vec6 :=
  ![msg.fx, msg.fy, msg.fz, msg.tx, msg.ty, msg.tz]

/-- EffortControllerBase::displayInBaseLink for 6-vectors: rotate the
linear and the angular 3-block independently by the rotation R of the
source frame (transform_kdl.M * wrench_kdl). -/
def displayInBaseLinkVec (R : Mat3) (w : Vec6) : Vec6 :=
  join3 (R.mulVec (transBlock w)) (R.mulVec (rotBlock w))

/-- The mutable state of HOCBFCartesianImpedanceController that the
target callbacks touch. -/
structure HocbfState where
  target_frame : Mat3 × Vec3
  initial_frame : Mat3 × Vec3
  received_initial_frame : Bool
  target_wrench : Vec6
  robot_base_link : String

/-- The mutable state of the simplified CartesianImpedanceController
that the target callbacks touch. -/
structure CiState where
  target_frame : Mat3 × Vec3
  target_wrench : Vec6
  robot_base_link : String

/-- HOCBFCartesianImpedanceController::targetFrameCallback (lines 382-403):
a message whose frame_id differs from the robot base link triggers a
rate-limited warning (Boolean flag true) and leaves the state untouched;
otherwise the target frame is replaced by the message pose and, on first
receipt, the initial frame is recorded. -/
def hocbfTargetFrameCallback (st : HocbfState) (msg : PoseMsg) :
    HocbfState × Bool :=
  if msg.frame_id ≠ st.robot_base_link then (st, true)
  else
    let st1 := { st with target_frame := msgFrame msg }
    if st1.received_initial_frame then (st1, false)
    else ({ st1 with initial_frame := msgFrame msg, received_initial_frame := true }, false)

/-- CartesianImpedanceController::targetFrameCallback (lines 823-841):
same guard, without the initial-frame bookkeeping. -/
def ciTargetFrameCallback (st : CiState) (msg : PoseMsg) : CiState × Bool :=
  if msg.frame_id ≠ st.robot_base_link then (st, true)
  else ({ st with target_frame := msgFrame msg }, false)

/-- HOCBFCartesianImpedanceController::targetWrenchCallback (lines 364-380):
the six wrench scalars are stored unconditionally; when the message frame
differs from the robot base link the stored wrench is then re-expressed
into the base frame with displayInBaseLink (rotOf gives the rotation the
forward kinematics returns for a frame name).  No warning is ever
emitted (flag constantly false). -/
def hocbfTargetWrenchCallback (rotOf : String → Mat3) (st : HocbfState)
    (msg : WrenchMsg) : HocbfState × Bool :=
  let w := rawWrench msg
  if msg.frame_id ≠ st.robot_base_link then
    ({ st with target_wrench := displayInBaseLinkVec (rotOf msg.frame_id) w }, false)
  else ({ st with target_wrench := w }, false)

/-- CartesianImpedanceController::targetWrenchCallback (lines 813-821):
the six scalars are stored as they are, with no frame check and no
warning. -/
def ciTargetWrenchCallback (st : CiState) (msg : WrenchMsg) : CiState × Bool :=
  ({ st with target_wrench := rawWrench msg }, false)

/-! ## Concrete instances used as witnesses and counterexample inputs -/

/-- A 1x1 Jacobian instance (Eigen matrices here are dynamically sized). -/
def jacA : Matrix (Fin 1) (Fin 1) ℚ := Matrix.of ![![1]]

/-- A 1x1 joint-space mass matrix instance. -/
def massA : Matrix (Fin 1) (Fin 1) ℚ := Matrix.of ![![2]]

/-- A safety filter instance that passes the nominal torque through. -/
def trivialFilter : FilterFun 1 1 := fun tau _ _ _ _ _ => tau

/-- A concrete controller state: base link frame name, identity target
and initial frames, zero stored wrench. -/
def hocbfSt0 : HocbfState :=
  { target_frame := (1, ![0, 0, 0])
    initial_frame := (1, ![0, 0, 0])
    received_initial_frame := false
    target_wrench := fun _ => 0
    robot_base_link := "base_link" }

/-- A concrete state of the simplified controller. -/
def ciSt0 : CiState :=
  { target_frame := (1, ![0, 0, 0])
    target_wrench := fun _ => 0
    robot_base_link := "base_link" }

/-- A pose message stamped with a frame that is not the base link. -/
def poseMsg0 : PoseMsg :=
  { frame_id := "tool0", px := 1, py := 0, pz := 0,
    qx := 0, qy := 0, qz := 0, qw := 1 }

/-- A wrench message stamped with a frame that is not the base link:
a unit force along x. -/
def wrenchMsg0 : WrenchMsg :=
  { frame_id := "tool0", fx := 1, fy := 0, fz := 0,
    tx := 0, ty := 0, tz := 0 }

/-- A forward-kinematics rotation lookup that returns the identity for
every frame name. -/
def idRotOf : String → Mat3 := fun _ => 1

/-! ## Helper lemmas -/

lemma stdClamp_le_one (v : ℚ) : stdClamp v (-1) 1 ≤ 1 := by
  unfold stdClamp
  split_ifs <;> linarith

lemma neg_one_le_stdClamp (v : ℚ) : -1 ≤ stdClamp v (-1) 1 := by
  unfold stdClamp
  split_ifs <;> linarith

lemma stdClamp_nonneg (v : ℚ) (hv : 0 ≤ v) : 0 ≤ stdClamp v (-1) 1 := by
  unfold stdClamp
  split_ifs <;> linarith

lemma normSq3_smul (c : ℚ) (v : Vec3) : normSq3 (c • v) = c ^ 2 * normSq3 v := by
  simp only [normSq3, Pi.smul_apply, smul_eq_mul]
  ring

lemma saturateEffort_fin (t L : ℚ) :
    saturateEffort (FVal.fin t) (FVal.fin L)
      = if L ≤ t then FVal.fin L
        else if t ≤ -L then FVal.fin (-L)
        else FVal.fin t := by
  simp [saturateEffort, fle, fge, fneg]

lemma saturateEffort_nan_limit (e : FVal) : saturateEffort e FVal.nan = e := by
  cases e <;> rfl

/-! ## Claim theorems -/

/-- C2: for every target/current frame pair, the error returned by
HOCBFCartesianImpedanceController::computeMotionError has rotation-block
norm at most 1 (stated as squared norm at most 1, which is equivalent)
and translation-block norm at most 1, and each block is the original
unit axis/direction scaled by the nonnegative clamped magnitude.  The
hypotheses are the postconditions of KDL GetRotAngle (unit axis,
nonnegative angle) and KDL Normalize (unit direction, nonnegative
returned norm); in Normalize's degenerate branch the direction (1,0,0)
is also a unit vector, so it is covered. -/
theorem C2_motion_error_bounded (dir axis : Vec3) (distance angle : ℚ)
    (hdir : normSq3 dir = 1) (hax : normSq3 axis = 1)
    (hd : 0 ≤ distance) (ha : 0 ≤ angle) :
    normSq3 (hocbfMotionErrorFinal dir distance axis angle).1 ≤ 1 ∧
    normSq3 (hocbfMotionErrorFinal dir distance axis angle).2 ≤ 1 ∧
    (hocbfMotionErrorFinal dir distance axis angle).1
      = stdClamp distance (-1) 1 • dir ∧
    (hocbfMotionErrorFinal dir distance axis angle).2
      = stdClamp angle (-1) 1 • axis ∧
    0 ≤ stdClamp distance (-1) 1 ∧ 0 ≤ stdClamp angle (-1) 1 := by
  refine ⟨?_, ?_, rfl, rfl, stdClamp_nonneg _ hd, stdClamp_nonneg _ ha⟩
  · show normSq3 (stdClamp distance (-1) 1 • dir) ≤ 1
    rw [normSq3_smul, hdir, mul_one]
    nlinarith [stdClamp_le_one distance, neg_one_le_stdClamp distance]
  · show normSq3 (stdClamp angle (-1) 1 • axis) ≤ 1
    rw [normSq3_smul, hax, mul_one]
    nlinarith [stdClamp_le_one angle, neg_one_le_stdClamp angle]

/-- Witness for C2 at a concrete over-limit input: distance 3 along the
y direction and angle 2 about the x axis are both clamped into bound. -/
theorem C2_motion_error_bounded_witness :
    normSq3 (hocbfMotionErrorFinal ![0, 1, 0] 3 ![1, 0, 0] 2).1 ≤ 1 ∧
    normSq3 (hocbfMotionErrorFinal ![0, 1, 0] 3 ![1, 0, 0] 2).2 ≤ 1 := by
  have h := C2_motion_error_bounded ![0, 1, 0] ![1, 0, 0] 3 2
    (by norm_num [normSq3]) (by norm_num [normSq3]) (by norm_num) (by norm_num)
  exact ⟨h.1, h.2.1⟩

/-- C3 (code-bug evidence): a NaN effort passes both saturation
comparisons of EffortControllerBase::writeJointEffortCmds unchanged, so
the value written to the joint's effort interface is NaN, not the zero
the specification's fail-closed requirement demands.  No finiteness
check exists anywhere on the write path. -/
theorem C3_nonfinite_forwarded :
    writeJointEffortCmds [FVal.nan] [FVal.fin 10] = [FVal.nan] ∧
    FVal.nan ≠ FVal.fin 0 := by
  decide

/-- C4: per joint, writeJointEffortCmds writes the saturation of that
joint's effort against its own limit (first conjunct positions the joint
anywhere in the vectors); for a finite nonnegative limit L the written
torque is the computed torque when it lies in [-L, L], exactly L when it
exceeds L, exactly -L when it falls below -L; a NaN limit (continuous
joint) never clamps: every effort value, finite or not, passes through
unchanged. -/
theorem C4_effort_saturation (t L : ℚ) (hL : 0 ≤ L)
    (pre suf preL sufL : List FVal) (hlen : pre.length = preL.length) :
    writeJointEffortCmds (pre ++ FVal.fin t :: suf) (preL ++ FVal.fin L :: sufL)
      = writeJointEffortCmds pre preL ++
          saturateEffort (FVal.fin t) (FVal.fin L) :: writeJointEffortCmds suf sufL ∧
    (-L ≤ t → t ≤ L → saturateEffort (FVal.fin t) (FVal.fin L) = FVal.fin t) ∧
    (L < t → saturateEffort (FVal.fin t) (FVal.fin L) = FVal.fin L) ∧
    (t < -L → saturateEffort (FVal.fin t) (FVal.fin L) = FVal.fin (-L)) ∧
    (∀ e : FVal, saturateEffort e FVal.nan = e) := by
  refine ⟨?_, ?_, ?_, ?_, saturateEffort_nan_limit⟩
  · unfold writeJointEffortCmds
    rw [List.zipWith_append _ _ _ _ _ hlen]
    rfl
  · intro hlo hhi
    rw [saturateEffort_fin]
    split_ifs with h1 h2
    · exact congrArg FVal.fin (le_antisymm h1 hhi)
    · exact congrArg FVal.fin (le_antisymm h2 hlo).symm
    · rfl
  · intro h
    rw [saturateEffort_fin, if_pos (le_of_lt h)]
  · intro h
    have hn : ¬L ≤ t := by linarith
    rw [saturateEffort_fin, if_neg hn, if_pos (le_of_lt h)]

/-- Witness for C4 at concrete inputs: torque 5 against limit 3 is
clamped to 3, and a NaN-limited joint passes torque 5 through. -/
theorem C4_effort_saturation_witness :
    writeJointEffortCmds [FVal.fin 5] [FVal.fin 3] = [FVal.fin 3] ∧
    saturateEffort (FVal.fin 5) FVal.nan = FVal.fin 5 := by
  have h := C4_effort_saturation 5 3 (by norm_num) [] [] [] [] rfl
  have h2 := h.2.2.1 (by norm_num)
  refine ⟨?_, h.2.2.2.2 _⟩
  have h1 := h.1
  rw [h2] at h1
  simpa [writeJointEffortCmds] using h1

/-- C6: in HOCBFCartesianImpedanceController::computeTorque, the gravity
term and the Coriolis term are each added to the torque produced by the
safety-filter stage, after the filter has been invoked on the nominal
task torque, and each is gated by its own flag: for every filter, the
output with the flags set is the output with both flags clear plus
exactly the enabled compensation terms, and the output with both flags
clear is the filter applied to the pre-compensation task torque. -/
theorem C6_compensation_after_filter {m n : ℕ} (filter : FilterFun m n)
    (jac : Matrix (Fin m) (Fin n) ℚ) (inertia : Matrix (Fin n) (Fin n) ℚ)
    (K D : Matrix (Fin m) (Fin m) ℚ) (motion_error : Fin m → ℚ)
    (q_dot gravity coriolis_dyn : Fin n → ℚ) (cg cc : Bool) (dt : ℚ) :
    (hocbfComputeTorqueCore filter jac inertia K D motion_error q_dot
        gravity coriolis_dyn cg cc dt).torque
      = (hocbfComputeTorqueCore filter jac inertia K D motion_error q_dot
          gravity coriolis_dyn false false dt).torque
        + (if cg then gravity else 0) + (if cc then coriolis_dyn else 0) ∧
    (hocbfComputeTorqueCore filter jac inertia K D motion_error q_dot
        gravity coriolis_dyn false false dt).torque
      = filter (tauTask jac K D motion_error q_dot) (LambdaCode jac inertia)
          jac 0 (jac.mulVec q_dot) dt := by
  cases cg <;> cases cc <;>
    simp [hocbfComputeTorqueCore]

/-- C10: the Coriolis-torque argument handed to the safety filter by
computeTorque is the zero vector for every choice of flags and inputs
(tau_coriolis is a freshly zero-initialized KDL::JntArray at the call,
and the actual Coriolis torque is only computed after the filter
returns, where it is added outside the filter). -/
theorem C10_zero_coriolis_to_filter {m n : ℕ} (filter : FilterFun m n)
    (jac : Matrix (Fin m) (Fin n) ℚ) (inertia : Matrix (Fin n) (Fin n) ℚ)
    (K D : Matrix (Fin m) (Fin m) ℚ) (motion_error : Fin m → ℚ)
    (q_dot gravity coriolis_dyn : Fin n → ℚ) (cg cc : Bool) (dt : ℚ) :
    (hocbfComputeTorqueCore filter jac inertia K D motion_error q_dot
        gravity coriolis_dyn cg cc dt).coriolisArg = 0 ∧
    (hocbfComputeTorqueCore filter jac inertia K D motion_error q_dot
        gravity coriolis_dyn cg cc dt).torque
      = filter (tauTask jac K D motion_error q_dot) (LambdaCode jac inertia)
          jac (0 : Fin n → ℚ) (jac.mulVec q_dot) dt
        + (if cg then gravity else 0) + (if cc then coriolis_dyn else 0) := by
  cases cg <;> cases cc <;>
    simp [hocbfComputeTorqueCore]

/-- C7: a target pose message whose frame identifier differs from the
configured robot base link leaves the whole controller state unchanged
and triggers the (rate-limited) warning, while a matching message
replaces the stored target frame with the message's pose; this holds
for both controllers. -/
theorem C7_target_frame_guard (st : HocbfState) (st2 : CiState) (msg : PoseMsg) :
    (msg.frame_id ≠ st.robot_base_link →
        (hocbfTargetFrameCallback st msg).1 = st ∧
        (hocbfTargetFrameCallback st msg).2 = true) ∧
    (msg.frame_id = st.robot_base_link →
        ((hocbfTargetFrameCallback st msg).1).target_frame = msgFrame msg ∧
        (hocbfTargetFrameCallback st msg).2 = false) ∧
    (msg.frame_id ≠ st2.robot_base_link →
        (ciTargetFrameCallback st2 msg).1 = st2 ∧
        (ciTargetFrameCallback st2 msg).2 = true) ∧
    (msg.frame_id = st2.robot_base_link →
        ((ciTargetFrameCallback st2 msg).1).target_frame = msgFrame msg ∧
        (ciTargetFrameCallback st2 msg).2 = false) := by
  refine ⟨fun h => ?_, fun h => ?_, fun h => ?_, fun h => ?_⟩
  · simp [hocbfTargetFrameCallback, h]
  · by_cases hr : st.received_initial_frame <;>
      simp [hocbfTargetFrameCallback, h, hr]
  · simp [ciTargetFrameCallback, h]
  · simp [ciTargetFrameCallback, h]

/-- Witness for C7: the concrete wrong-frame pose message leaves the
concrete state untouched and warns; re-stamped with the base link it
replaces the target frame. -/
theorem C7_target_frame_guard_witness :
    (hocbfTargetFrameCallback hocbfSt0 poseMsg0).1 = hocbfSt0 ∧
    (hocbfTargetFrameCallback hocbfSt0 poseMsg0).2 = true ∧
    (ciTargetFrameCallback ciSt0 { poseMsg0 with frame_id := ciSt0.robot_base_link }).1.target_frame
      = msgFrame { poseMsg0 with frame_id := ciSt0.robot_base_link } := by
  have h1 := C7_target_frame_guard hocbfSt0 ciSt0 poseMsg0
  have h2 := C7_target_frame_guard hocbfSt0 ciSt0
    { poseMsg0 with frame_id := ciSt0.robot_base_link }
  exact ⟨(h1.1 (by decide)).1, (h1.1 (by decide)).2, (h2.2.2.2 rfl).1⟩

/-- C8 counterexample: a target wrench message stamped "tool0" against a
controller whose base link is "base_link" is not ignored — the stored
target wrench changes — and the warning flag stays false, refuting the
claim at this concrete input. -/
theorem C8_wrench_guard_counterexample :
    ((hocbfTargetWrenchCallback idRotOf hocbfSt0 wrenchMsg0).1.target_wrench
        ≠ hocbfSt0.target_wrench) ∧
    (hocbfTargetWrenchCallback idRotOf hocbfSt0 wrenchMsg0).2 = false := by
  constructor
  · intro h
    have h0 := congrFun h 0
    simp [hocbfTargetWrenchCallback, hocbfSt0, wrenchMsg0, idRotOf,
      displayInBaseLinkVec, rawWrench, join3, transBlock, rotBlock,
      Matrix.one_mulVec] at h0
  · simp [hocbfTargetWrenchCallback, hocbfSt0, wrenchMsg0]

/-- C8 amended: a wrong-frame target wrench message is stored, not
ignored — the HOCBF controller re-expresses it into the base frame by
rotating its force and torque blocks with the message frame's rotation,
a matching-frame message is stored as-is, and no warning is emitted in
either case; the simplified controller stores the raw wrench
unconditionally without any frame check or warning. -/
theorem C8_wrench_guard_amended (rotOf : String → Mat3) (st : HocbfState)
    (st2 : CiState) (msg : WrenchMsg) :
    (hocbfTargetWrenchCallback rotOf st msg).2 = false ∧
    (msg.frame_id = st.robot_base_link →
        (hocbfTargetWrenchCallback rotOf st msg).1.target_wrench = rawWrench msg) ∧
    (msg.frame_id ≠ st.robot_base_link →
        (hocbfTargetWrenchCallback rotOf st msg).1.target_wrench
          = displayInBaseLinkVec (rotOf msg.frame_id) (rawWrench msg)) ∧
    (ciTargetWrenchCallback st2 msg).1.target_wrench = rawWrench msg ∧
    (ciTargetWrenchCallback st2 msg).2 = false := by
  refine ⟨?_, fun h => ?_, fun h => ?_, rfl, rfl⟩
  · unfold hocbfTargetWrenchCallback
    split_ifs <;> rfl
  · simp [hocbfTargetWrenchCallback, h]
  · simp [hocbfTargetWrenchCallback, h]

/-- Witness for C8 amended: the concrete wrong-frame message is stored
after rotation by the (identity) frame rotation. -/
theorem C8_wrench_guard_amended_witness :
    (hocbfTargetWrenchCallback idRotOf hocbfSt0 wrenchMsg0).1.target_wrench
      = displayInBaseLinkVec (idRotOf wrenchMsg0.frame_id) (rawWrench wrenchMsg0) := by
  have h := C8_wrench_guard_amended idRotOf hocbfSt0 ciSt0 wrenchMsg0
  exact h.2.2.1 (by decide)

/-- C5 counterexample: the simplified variant
CartesianImpedanceController::computeMotionError computes the
translation block as current minus target, so at target position
(1,0,0) and current position (0,0,0) (identity orientations) it differs
from the claimed target-minus-current formula. -/
theorem C5_translation_sign_counterexample :
    transBlock (ciMotionError 1 1 ![1, 0, 0] ![0, 0, 0])
      ≠ (![1, 0, 0] - ![0, 0, 0] : Vec3) := by
  intro h
  have h0 := congrFun h 0
  simp [ciMotionError, transBlock, join3, Pi.sub_apply] at h0
  norm_num at h0

/-- C5 amended: the HOCBF variant and the historical unclamped variant
build the error frame exactly as claimed — rotation error
target-orientation composed with the inverse of current-orientation
(composing it back with an orthogonal current rotation recovers the
target) and translation error target minus current — while the
simplified variant computes the negated translation error
(current minus target) and a cross-product small-angle rotation error
instead of the axis-angle reduction. -/
theorem C5_amended_error_formulas (tM cM : Mat3) (tp cp : Vec3)
    (hc : cM.transpose * cM = 1) :
    (hocbfErrorFrame tM cM tp cp).1 * cM = tM ∧
    (hocbfErrorFrame tM cM tp cp).2 = tp - cp ∧
    (oldCiErrorFrame tM cM tp cp).1 * cM = tM ∧
    (oldCiErrorFrame tM cM tp cp).2 = tp - cp ∧
    transBlock (ciMotionError tM cM tp cp) = -(tp - cp) ∧
    rotBlock (ciMotionError tM cM tp cp)
      = (1 / 2 : ℚ) •
          (cross (col tM 0) (col cM 0) + cross (col tM 1) (col cM 1) +
            cross (col tM 2) (col cM 2)) := by
  refine ⟨?_, rfl, ?_, rfl, ?_, ?_⟩
  · show tM * cM.transpose * cM = tM
    rw [Matrix.mul_assoc, hc, Matrix.mul_one]
  · show tM * cM.transpose * cM = tM
    rw [Matrix.mul_assoc, hc, Matrix.mul_one]
  · funext i
    fin_cases i <;>
      simp [ciMotionError, transBlock, join3, Pi.sub_apply, Pi.neg_apply]
  · funext i
    fin_cases i <;> rfl

/-- Witness for C5 amended at the identity current rotation. -/
theorem C5_amended_error_formulas_witness :
    (hocbfErrorFrame 1 1 ![1, 2, 3] ![0, 0, 1]).1 * (1 : Mat3) = 1 ∧
    (hocbfErrorFrame 1 1 ![1, 2, 3] ![0, 0, 1]).2 = ![1, 2, 3] - ![0, 0, 1] := by
  have h := C5_amended_error_formulas 1 1 ![1, 2, 3] ![0, 0, 1]
    (by rw [Matrix.transpose_one, Matrix.one_mul])
  exact ⟨h.1, h.2.1⟩

lemma matMul_fin_one (A B : Matrix (Fin 1) (Fin 1) ℚ) :
    A * B = Matrix.of ![![A 0 0 * B 0 0]] := by
  ext i j
  fin_cases i
  fin_cases j
  simp [Matrix.mul_apply, Fin.sum_univ_one]

lemma matTranspose_fin_one (A : Matrix (Fin 1) (Fin 1) ℚ) : A.transpose = A := by
  ext i j
  fin_cases i
  fin_cases j
  rfl

lemma matInv_fin_one (a : ℚ) : matInv (Matrix.of ![![a]]) = Matrix.of ![![a⁻¹]] := by
  unfold matInv
  ext i j
  fin_cases i
  fin_cases j
  simp [Matrix.det_fin_one, Matrix.adjugate_fin_one, Matrix.smul_apply,
    Matrix.one_apply]

/-- C1 (code-bug evidence): the matrix computeTorque passes to the
safety filter as the operational-space inertia is
(J * M * Jᵀ)⁻¹ — the mass matrix is not inverted — which differs from
the Λ = (J * M⁻¹ * Jᵀ)⁻¹ the specification's SafetyFilter contract
states: at the one-joint instance J = [[1]], M = [[2]] the code passes
[[1/2]] while the contract requires [[2]], and the lambdaArg recorded
by the computeTorque embedding is exactly the code's value. -/
theorem C1_lambda_mismatch :
    LambdaCode jacA massA ≠ LambdaSpecOSIM jacA massA ∧
    LambdaCode jacA massA = Matrix.of ![![(1 : ℚ) / 2]] ∧
    LambdaSpecOSIM jacA massA = Matrix.of ![![(2 : ℚ)]] ∧
    (hocbfComputeTorqueCore trivialFilter jacA massA 1 1 0 0 0 0 false false 0).lambdaArg
      = LambdaCode jacA massA := by
  have hJJ : jacA * massA * jacA.transpose = Matrix.of ![![(2 : ℚ)]] := by
    rw [matTranspose_fin_one, matMul_fin_one, matMul_fin_one]
    norm_num [jacA, massA]
  have hcode : LambdaCode jacA massA = Matrix.of ![![(1 : ℚ) / 2]] := by
    rw [LambdaCode, hJJ, matInv_fin_one]
    norm_num
  have hJMinvJ : jacA * matInv massA * jacA.transpose = Matrix.of ![![(1 : ℚ) / 2]] := by
    rw [matTranspose_fin_one, massA, matInv_fin_one, matMul_fin_one, matMul_fin_one]
    norm_num [jacA]
  have hspec : LambdaSpecOSIM jacA massA = Matrix.of ![![(2 : ℚ)]] := by
    rw [LambdaSpecOSIM, hJMinvJ, matInv_fin_one]
    norm_num
  refine ⟨?_, hcode, hspec, rfl⟩
  intro hEq
  rw [hcode, hspec] at hEq
  have h00 := congrFun (congrFun hEq 0) 0
  simp [Matrix.of_apply] at h00
  norm_num at h00

end EffortCtrl
